import Mathlib

/-!
Verification development for `claimcoins.py`, a batch daily-reward claimer.

The script runs, per account, a three-stage pipeline (login, fetch reward
info, claim each tier whose status is "complete") and records one outcome
dictionary per account.  We embed the pipeline shallowly: JSON values are an
inductive type, Python dictionary access and truthiness are modelled
explicitly (including `.get` raising `AttributeError` on non-dict values and
the local variable `rr` possibly being referenced before assignment inside
the per-tier exception handler), and the three HTTP endpoints are an oracle
mapping each request to either a transport-level exception or a response.
External library calls (`hashlib.md5`, the network) are parameters of the
embedding; everything the script itself does is translated from the source.
-/

/-- A JSON value, as produced by `resp.json()`.  Numbers are modelled as
integers (the fields the script reads are integral identifiers). -/
inductive Json where
  | null : Json
  | bool : Bool → Json
  | num : Int → Json
  | str : String → Json
  | arr : List Json → Json
  | obj : List (String × Json) → Json

/-- Python exceptions that the script can raise and catch. -/
inductive PyErr where
  | httpError (status : Nat)
  | valueError (msg : String)
  | attributeError (msg : String)
  | typeError (msg : String)
  | unboundLocal (name : String)
  | transport (msg : String)

/-- The message text of an exception, as `str(e)` would render it (the exact
wording of library messages is abstracted; the claims only inspect stage
names, never message text). -/
def PyErr.str : PyErr → String
  | .httpError s => "HTTP error for status " ++ toString s
  | .valueError m => m
  | .attributeError m => m
  | .typeError m => m
  | .unboundLocal n => "local variable " ++ n ++ " referenced before assignment"
  | .transport m => m

/-- Python `d.get(key, default)`: looks the key up when `d` is a dict and
raises `AttributeError` otherwise (e.g. `.get` on a list or string). -/
def pyGet (j : Json) (key : String) (dflt : Json) : Except PyErr Json :=
  match j with
  | .obj kvs => .ok ((kvs.lookup key).getD dflt)
  | _ => .error (.attributeError "object has no attribute get")

/-- Python truthiness of a JSON value (`None`, `''`, `0`, `False`, empty
containers are falsy). -/
def pyTruthy : Json → Bool
  | .null => false
  | .bool b => b
  | .num n => n != 0
  | .str s => !s.isEmpty
  | .arr l => !l.isEmpty
  | .obj l => !l.isEmpty

/-- Python `str(v)` for a JSON value, as used by the f-string
`f"claim_\x7bnum\x7d"` that names a per-tier error stage.  Container
renderings are abbreviated; no claim depends on them. -/
def pyStr : Json → String
  | .null => "None"
  | .bool true => "True"
  | .bool false => "False"
  | .num n => toString n
  | .str s => s
  | .arr _ => "[list]"
  | .obj _ => "[dict]"

/-- Python `for x in v`: lists iterate their elements, strings their
characters, dicts their keys; other values raise `TypeError`. -/
def pyIter : Json → Except PyErr (List Json)
  | .arr l => .ok l
  | .str s => .ok (s.toList.map fun c => Json.str (String.mk [c]))
  | .obj kvs => .ok (kvs.map fun kv => Json.str kv.fst)
  | _ => .error (.typeError "object is not iterable")

/-- Python `v == "complete"`: true exactly when `v` is that string. -/
def isCompleteStr : Json → Bool
  | .str s => s == "complete"
  | _ => false

/-- An HTTP response as the `requests` library hands it back: status code,
raw body text, and the outcome of `.json()` (`none` when parsing fails). -/
structure Response where
  status : Nat
  text : String
  body : Option Json

/-- The result of one `sess.post` call: either a transport-level exception
(connection error, timeout) or a response. -/
inductive CallResult where
  | transErr (msg : String)
  | resp (r : Response)

/-- The remote service, one oracle per account run: the login endpoint keyed
by the posted payload, the info endpoint, and the claim endpoint keyed by the
posted `workInfoReadingNum` value. -/
structure NetOracle where
  login : Json → CallResult
  info : CallResult
  claim : Json → CallResult

/-- `safe_json(resp)`: the decoded body when `.json()` succeeds, otherwise a
fallback dict carrying the raw text under the reserved `_raw` key. -/
def safe_json (r : Response) : Json :=
  match r.body with
  | some j => j
  | none => Json.obj [("_raw", Json.str r.text)]

/-- `r.raise_for_status()` raises exactly for 4xx and 5xx status codes. -/
def httpBad (s : Nat) : Bool :=
  decide (400 ≤ s ∧ s < 600)

/-- One account credential from the static table. -/
structure Cred where
  phone : String
  code : String

/-- The run configuration shared by all pipeline executions; only the shared
password base is observable in the embedded pipeline. -/
structure Cfg where
  password : String
  salesId : String

/-- The JSON payload posted to the login endpoint: the phone and the MD5 hex
digest (abstracted as the function parameter `md5hex`) of the shared password
base concatenated with the account code. -/
def loginPayload (md5hex : String → String) (cfg : Cfg) (cred : Cred) : Json :=
  Json.obj [("phone", Json.str cred.phone),
            ("password", Json.str (md5hex (cfg.password ++ cred.code)))]

/-- Stage 1 of `login_and_claim` (the first `try` block): posts the login
payload, records status code and decoded body, runs `raise_for_status`, then
reads `result.token`, `result.tokenHead` and `result.sysUserId` from the body
and raises `ValueError` when token or tokenHead is falsy.  Returns the two
recorded fields and the exception caught by the handler, if any.  The
`sysUserId` value is read but never validated. -/
def loginStage (md5hex : String → String) (cfg : Cfg) (cred : Cred)
    (o : NetOracle) : Option Nat × Option Json × Option PyErr :=
  match o.login (loginPayload md5hex cfg cred) with
  | .transErr m => (none, none, some (.transport m))
  | .resp r =>
    let resp := safe_json r
    if httpBad r.status then (some r.status, some resp, some (.httpError r.status))
    else
      match pyGet resp "result" (Json.obj []) with
      | .error e => (some r.status, some resp, some e)
      | .ok res =>
        match pyGet res "token" Json.null with
        | .error e => (some r.status, some resp, some e)
        | .ok token =>
          match pyGet res "tokenHead" Json.null with
          | .error e => (some r.status, some resp, some e)
          | .ok head =>
            match pyGet res "sysUserId" Json.null with
            | .error e => (some r.status, some resp, some e)
            | .ok _uid =>
              if !pyTruthy token || !pyTruthy head then
                (some r.status, some resp, some (.valueError "Missing token/head"))
              else
                (some r.status, some resp, none)

/-- The same case analysis as the body-reading part of `loginStage`, as a
predicate on the decoded login body: true when the `.get` chain raises or
when token or tokenHead is falsy. -/
def loginBodyBad (j : Json) : Bool :=
  match pyGet j "result" (Json.obj []) with
  | .error _ => true
  | .ok res =>
    match pyGet res "token" Json.null with
    | .error _ => true
    | .ok token =>
      match pyGet res "tokenHead" Json.null with
      | .error _ => true
      | .ok head =>
        match pyGet res "sysUserId" Json.null with
        | .error _ => true
        | .ok _ => !pyTruthy token || !pyTruthy head

/-- The condition under which stage 1 records a login error: transport
failure, a 4xx/5xx status, or a bad decoded body. -/
def loginFailCond (md5hex : String → String) (cfg : Cfg) (cred : Cred)
    (o : NetOracle) : Bool :=
  match o.login (loginPayload md5hex cfg cred) with
  | .transErr _ => true
  | .resp r => httpBad r.status || loginBodyBad (safe_json r)

/-- Stage 2 of `login_and_claim` (the second `try` block): posts the info
request, records status code and decoded body, runs `raise_for_status`.
Returns the recorded fields and either the caught exception or the decoded
info body. -/
def infoStage (o : NetOracle) : Option Nat × Option Json × Except PyErr Json :=
  match o.info with
  | .transErr m => (none, none, .error (.transport m))
  | .resp r =>
    let info := safe_json r
    if httpBad r.status then (some r.status, some info, .error (.httpError r.status))
    else (some r.status, some info, .ok info)

/-- The condition under which stage 2 records a fetch error: transport
failure or a 4xx/5xx status. -/
def infoFailCond (o : NetOracle) : Bool :=
  match o.info with
  | .transErr _ => true
  | .resp r => httpBad r.status

/-- Line 151 of the source: extract the tier sequence from the info body via
`info.get("result", \x7b\x7d).get("memberReadingRewardDetailVoList", [])` and
iterate it; any exception escapes to the outer `claim_loop` handler. -/
def tiersOf (info : Json) : Except PyErr (List Json) := do
  let res ← pyGet info "result" (Json.obj [])
  let lst ← pyGet res "memberReadingRewardDetailVoList" (Json.arr [])
  pyIter lst

/-- One claim attempt as recorded in `out["claim_responses"]`. -/
structure ClaimAttempt where
  tier : Json
  status_code : Nat
  response : Json

/-- One entry of `out["errors"]`: stage name, `str(e)`, and, for per-tier
claim errors only, the `safe_json` of the (possibly stale) `rr` response. -/
structure ErrorRecord where
  stage : String
  error : String
  response : Option Json := none

/-- The error record appended by the per-tier claim handler, whose stage name
interpolates the tier number. -/
def mkClaimErr (num : Json) (e : PyErr) (resp : Json) : ErrorRecord :=
  { stage := "claim_" ++ pyStr num, error := e.str, response := some resp }

/-- The claim loop (lines 152 to 172 of the source), threading the binding
state of the local variable `rr`.  For each tier whose status equals
"complete" it posts a claim; on a response it appends a `ClaimAttempt`, then
either appends the tier number to `completed` (2xx/3xx) or appends a per-tier
error record (4xx/5xx).  On a transport error the handler evaluates
`safe_json(rr)`: when `rr` is still unbound this raises `UnboundLocalError`,
which escapes the loop; otherwise the stale response is recorded and the loop
continues.  Returns the appended attempts, the appended per-tier errors, the
`completed` list, and the exception escaping the loop, if any. -/
def claimLoop (o : NetOracle) :
    Option Response → List Json →
    List ClaimAttempt × List ErrorRecord × List Json × Option PyErr
  | _, [] => ([], [], [], none)
  | lastRr, tier :: rest =>
    match pyGet tier "memberReadingRewardStatus" Json.null with
    | .error e => ([], [], [], some e)
    | .ok st =>
      if isCompleteStr st then
        match pyGet tier "workInfoReadingNum" Json.null with
        | .error e => ([], [], [], some e)
        | .ok num =>
          match o.claim num with
          | .transErr m =>
            match lastRr with
            | none => ([], [], [], some (.unboundLocal "rr"))
            | some r0 =>
              let k := claimLoop o (some r0) rest
              (k.1, mkClaimErr num (.transport m) (safe_json r0) :: k.2.1,
               k.2.2.1, k.2.2.2)
          | .resp rr =>
            let att : ClaimAttempt := ⟨num, rr.status, safe_json rr⟩
            if httpBad rr.status then
              let k := claimLoop o (some rr) rest
              (att :: k.1,
               mkClaimErr num (.httpError rr.status) (safe_json rr) :: k.2.1,
               k.2.2.1, k.2.2.2)
            else
              let k := claimLoop o (some rr) rest
              (att :: k.1, k.2.1, num :: k.2.2.1, k.2.2.2)
      else
        claimLoop o lastRr rest

/-- The per-account outcome dictionary `out`.  Optional fields model keys
that the source only sets on certain paths (`claim_responses` is created by
`setdefault` on the first appended attempt; `claimed_tiers` is assigned only
when the claim loop finishes without an escaping exception). -/
structure Outcome where
  phone : String
  login_status_code : Option Nat := none
  login_response : Option Json := none
  info_status_code : Option Nat := none
  info_response : Option Json := none
  claim_responses : Option (List ClaimAttempt) := none
  claimed_tiers : Option (List Json) := none
  errors : List ErrorRecord := []

/-- The full per-account pipeline `login_and_claim(cred, cfg)`: stage 1, on
failure one error record with stage "login" and an immediate return; stage 2,
on failure one error record with stage "fetch_info" and an immediate return;
then tier extraction and the claim loop, with any escaping exception recorded
as stage "claim_loop" (in which case `claimed_tiers` is never assigned). -/
def login_and_claim (md5hex : String → String) (cfg : Cfg) (cred : Cred)
    (o : NetOracle) : Outcome :=
  let l := loginStage md5hex cfg cred o
  match l.2.2 with
  | some e =>
    { phone := cred.phone, login_status_code := l.1, login_response := l.2.1,
      errors := [{ stage := "login", error := e.str }] }
  | none =>
    let i := infoStage o
    match i.2.2 with
    | .error e =>
      { phone := cred.phone, login_status_code := l.1, login_response := l.2.1,
        info_status_code := i.1, info_response := i.2.1,
        errors := [{ stage := "fetch_info", error := e.str }] }
    | .ok info =>
      match tiersOf info with
      | .error e =>
        { phone := cred.phone, login_status_code := l.1, login_response := l.2.1,
          info_status_code := i.1, info_response := i.2.1,
          errors := [{ stage := "claim_loop", error := e.str }] }
      | .ok tiers =>
        let k := claimLoop o none tiers
        { phone := cred.phone, login_status_code := l.1, login_response := l.2.1,
          info_status_code := i.1, info_response := i.2.1,
          claim_responses := if k.1.isEmpty then none else some k.1,
          claimed_tiers := match k.2.2.2 with
            | none => some k.2.2.1
            | some _ => none,
          errors := k.2.1 ++ (match k.2.2.2 with
            | none => []
            | some e => [{ stage := "claim_loop", error := e.str }]) }

/-- The orchestrator `main`: one pipeline execution per credential, each with
its own view of the remote service; the futures loop collects exactly one
outcome per submitted account. -/
def runAll (md5hex : String → String) (cfg : Cfg) (world : Cred → NetOracle)
    (creds : List Cred) : List Outcome :=
  creds.map fun c => login_and_claim md5hex cfg c (world c)

/-- Whether a fetched tier record has status exactly "complete". -/
def tierStatusComplete (t : Json) : Bool :=
  match pyGet t "memberReadingRewardStatus" Json.null with
  | .ok v => isCompleteStr v
  | .error _ => false

/-- The tier number field of a fetched tier record. -/
def tierNum (t : Json) : Json :=
  match pyGet t "workInfoReadingNum" Json.null with
  | .ok v => v
  | .error _ => Json.null

/-- The tier numbers of the tiers in a fetched list whose status equals
"complete", in service order. -/
def completeNumsOf (tiers : List Json) : List Json :=
  (tiers.filter tierStatusComplete).map tierNum

/-- The tier numbers marked "complete" in the info response that the service
returns, in service order (empty when the fetch fails or the body has no tier
list). -/
def completeNums (o : NetOracle) : List Json :=
  match (infoStage o).2.2 with
  | .error _ => []
  | .ok info =>
    match tiersOf info with
    | .error _ => []
    | .ok tiers => completeNumsOf tiers

/-! ### Concrete fixtures used by witnesses and counterexamples -/

/-- A concrete stand-in for the abstract digest parameter. -/
def md5fix : String → String := fun s => "digest:" ++ s

/-- A concrete run configuration. -/
def cfgFix : Cfg := ⟨"password", "232"⟩

/-- A concrete account credential (first row of the static table). -/
def credFix : Cred := ⟨"09582811870", "755"⟩

/-- A login body with token, tokenHead and sysUserId all present. -/
def okLoginBody : Json :=
  Json.obj [("result", Json.obj [("token", Json.str "t"),
                                 ("tokenHead", Json.str "Bearer"),
                                 ("sysUserId", Json.num 7)])]

/-- A login body with token and tokenHead present but no sysUserId. -/
def noUidLoginBody : Json :=
  Json.obj [("result", Json.obj [("token", Json.str "t"),
                                 ("tokenHead", Json.str "Bearer")])]

/-- A fetched tier record with status "complete" and the given number. -/
def tierComplete (n : Int) : Json :=
  Json.obj [("memberReadingRewardStatus", Json.str "complete"),
            ("workInfoReadingNum", Json.num n)]

/-- An info body listing two complete tiers, numbers 1 and 2. -/
def infoBodyTwoTiers : Json :=
  Json.obj [("result", Json.obj [("memberReadingRewardDetailVoList",
              Json.arr [tierComplete 1, tierComplete 2])])]

/-- An info body listing one complete tier, number 3. -/
def infoBodyOneTier : Json :=
  Json.obj [("result", Json.obj [("memberReadingRewardDetailVoList",
              Json.arr [tierComplete 3])])]

/-- An info body whose tier list holds one complete tier (number 5) followed
by a malformed (string) tier record. -/
def infoBodyBadTier : Json :=
  Json.obj [("result", Json.obj [("memberReadingRewardDetailVoList",
              Json.arr [tierComplete 5, Json.str "bad"])])]

/-- An oracle whose login endpoint returns 404 with an undecodable body. -/
def oracleLoginRejected : NetOracle :=
  { login := fun _ => .resp ⟨404, "not found", none⟩,
    info := .resp ⟨200, "", some (Json.obj [])⟩,
    claim := fun _ => .resp ⟨200, "", some (Json.obj [])⟩ }

/-- An oracle whose login succeeds with a body missing the member id. -/
def oracleNoUid : NetOracle :=
  { login := fun _ => .resp ⟨200, "", some noUidLoginBody⟩,
    info := .resp ⟨200, "", some (Json.obj [])⟩,
    claim := fun _ => .resp ⟨200, "", some (Json.obj [])⟩ }

/-- An oracle whose login returns the non-2xx status 304 with a complete
body. -/
def oracleLogin304 : NetOracle :=
  { login := fun _ => .resp ⟨304, "", some okLoginBody⟩,
    info := .resp ⟨200, "", some (Json.obj [])⟩,
    claim := fun _ => .resp ⟨200, "", some (Json.obj [])⟩ }

/-- An oracle whose info endpoint returns the non-2xx status 304 carrying one
complete tier; claims succeed. -/
def oracleInfo304 : NetOracle :=
  { login := fun _ => .resp ⟨200, "", some okLoginBody⟩,
    info := .resp ⟨304, "", some infoBodyOneTier⟩,
    claim := fun _ => .resp ⟨200, "", some (Json.obj [])⟩ }

/-- An oracle whose info endpoint returns a 500. -/
def oracleInfo500 : NetOracle :=
  { login := fun _ => .resp ⟨200, "", some okLoginBody⟩,
    info := .resp ⟨500, "boom", none⟩,
    claim := fun _ => .resp ⟨200, "", some (Json.obj [])⟩ }

/-- An oracle where the claim call for tier 1 (the first claim issued) fails
at transport level and the claim call for tier 2 would succeed. -/
def oracleFirstClaimDrops : NetOracle :=
  { login := fun _ => .resp ⟨200, "", some okLoginBody⟩,
    info := .resp ⟨200, "", some infoBodyTwoTiers⟩,
    claim := fun n => match n with
      | .num 1 => .transErr "timeout"
      | _ => .resp ⟨200, "", some (Json.obj [])⟩ }

/-- An oracle serving the tier list with a malformed second record; the claim
for tier 5 succeeds before the loop hits the bad record. -/
def oracleBadTier : NetOracle :=
  { login := fun _ => .resp ⟨200, "", some okLoginBody⟩,
    info := .resp ⟨200, "", some infoBodyBadTier⟩,
    claim := fun _ => .resp ⟨200, "", some (Json.obj [])⟩ }

/-- An info body listing one complete tier, number 4. -/
def infoBodyTier4 : Json :=
  Json.obj [("result", Json.obj [("memberReadingRewardDetailVoList",
              Json.arr [tierComplete 4])])]

/-- An oracle whose claim endpoint returns the non-2xx status 304. -/
def oracle304Claim : NetOracle :=
  { login := fun _ => .resp ⟨200, "", some okLoginBody⟩,
    info := .resp ⟨200, "", some infoBodyTier4⟩,
    claim := fun _ => .resp ⟨304, "", some (Json.obj [])⟩ }

/-! ### Lemmas -/

/-- The tiers attempted by the claim loop are, in order, a sublist of the
numbers of the tiers whose status is "complete". -/
theorem claimLoop_attempts_sublist (o : NetOracle) (tiers : List Json) :
    ∀ lastRr, ((claimLoop o lastRr tiers).1.map ClaimAttempt.tier).Sublist
      (completeNumsOf tiers) := by
  induction tiers with
  | nil => intro lastRr; simp [claimLoop, completeNumsOf]
  | cons tier rest ih =>
    intro lastRr
    rcases hst : pyGet tier "memberReadingRewardStatus" Json.null with e | st
    · simp [claimLoop, hst]
    · rcases hcs : isCompleteStr st with _ | _
      · have hfilter : tierStatusComplete tier = false := by
          simp [tierStatusComplete, hst, hcs]
        simp only [claimLoop, hst, hcs, completeNumsOf, List.filter_cons, hfilter]
        simpa [completeNumsOf] using ih lastRr
      · have hfilter : tierStatusComplete tier = true := by
          simp [tierStatusComplete, hst, hcs]
        simp only [claimLoop, hst, hcs, completeNumsOf, List.filter_cons, hfilter,
          if_true, List.map_cons]
        rcases hnum : pyGet tier "workInfoReadingNum" Json.null with e | num
        · simp
        · have htn : tierNum tier = num := by simp [tierNum, hnum]
          rw [htn]
          rcases hclaim : o.claim num with m | rr
          · rcases lastRr with _ | r0
            · simp [hclaim]
            · simpa [hclaim, completeNumsOf] using (ih (some r0)).cons num
          · rcases hbad : httpBad rr.status with _ | _
            · simpa [hclaim, hbad, completeNumsOf] using (ih (some rr)).cons₂ num
            · simpa [hclaim, hbad, completeNumsOf] using (ih (some rr)).cons₂ num

/-- Every tier number in the claim loop's `completed` list comes from a tier
whose status is "complete", and its claim call returned a response whose
status passed `raise_for_status`. -/
theorem claimLoop_completed_spec (o : NetOracle) (tiers : List Json) :
    ∀ lastRr t, t ∈ (claimLoop o lastRr tiers).2.2.1 →
      t ∈ completeNumsOf tiers ∧
        ∃ rr, o.claim t = CallResult.resp rr ∧ httpBad rr.status = false := by
  induction tiers with
  | nil => intro lastRr t ht; simp [claimLoop] at ht
  | cons tier rest ih =>
    intro lastRr t
    rcases hst : pyGet tier "memberReadingRewardStatus" Json.null with e | st
    · intro ht; simp [claimLoop, hst] at ht
    · rcases hcs : isCompleteStr st with _ | _
      · have hfilter : tierStatusComplete tier = false := by
          simp [tierStatusComplete, hst, hcs]
        intro ht
        simp only [claimLoop, hst, hcs] at ht
        rcases ih lastRr t ht with ⟨hmem, hok⟩
        refine ⟨?_, hok⟩
        simpa [completeNumsOf, List.filter_cons, hfilter] using hmem
      · have hfilter : tierStatusComplete tier = true := by
          simp [tierStatusComplete, hst, hcs]
        intro ht
        simp only [claimLoop, hst, hcs, if_true] at ht
        rcases hnum : pyGet tier "workInfoReadingNum" Json.null with e | num
        · simp [hnum] at ht
        · have htn : tierNum tier = num := by simp [tierNum, hnum]
          simp only [hnum] at ht
          rcases hclaim : o.claim num with m | rr
          · simp only [hclaim] at ht
            rcases lastRr with _ | r0
            · simp at ht
            · simp only [] at ht
              rcases ih (some r0) t ht with ⟨hmem, hok⟩
              refine ⟨?_, hok⟩
              simp only [completeNumsOf, List.filter_cons, hfilter, if_true,
                List.map_cons, htn, List.mem_cons]
              right
              simpa [completeNumsOf] using hmem
          · simp only [hclaim] at ht
            rcases hbad : httpBad rr.status with _ | _
            · simp only [hbad, Bool.false_eq_true, if_false, List.mem_cons] at ht
              rcases ht with h | h
              · subst h
                exact ⟨by simp [completeNumsOf, List.filter_cons, hfilter, htn],
                       rr, hclaim, hbad⟩
              · rcases ih (some rr) t h with ⟨hmem, hok⟩
                refine ⟨?_, hok⟩
                simp only [completeNumsOf, List.filter_cons, hfilter, if_true,
                  List.map_cons, htn, List.mem_cons]
                right
                simpa [completeNumsOf] using hmem
            · simp only [hbad, if_true] at ht
              rcases ih (some rr) t ht with ⟨hmem, hok⟩
              refine ⟨?_, hok⟩
              simp only [completeNumsOf, List.filter_cons, hfilter, if_true,
                List.map_cons, htn, List.mem_cons]
              right
              simpa [completeNumsOf] using hmem

/-- The pipeline tags its outcome with the account's phone in every branch. -/
theorem login_and_claim_phone (md5hex : String → String) (cfg : Cfg)
    (cred : Cred) (o : NetOracle) :
    (login_and_claim md5hex cfg cred o).phone = cred.phone := by
  simp only [login_and_claim]
  repeat' split
  all_goals rfl

/-- The recorded login status code is the one returned by stage 1 in every
branch of the pipeline. -/
theorem login_and_claim_login_status (md5hex : String → String) (cfg : Cfg)
    (cred : Cred) (o : NetOracle) :
    (login_and_claim md5hex cfg cred o).login_status_code
      = (loginStage md5hex cfg cred o).1 := by
  simp only [login_and_claim]
  repeat' split
  all_goals rfl

/-- When the login failure condition holds, stage 1 produces an exception. -/
theorem loginStage_some_of_cond (md5hex : String → String) (cfg : Cfg)
    (cred : Cred) (o : NetOracle)
    (h : loginFailCond md5hex cfg cred o = true) :
    ∃ e, (loginStage md5hex cfg cred o).2.2 = some e := by
  unfold loginFailCond at h
  rcases hpost : o.login (loginPayload md5hex cfg cred) with m | r
  · exact ⟨.transport m, by simp [loginStage, hpost]⟩
  · simp only [hpost] at h
    by_cases hbad : httpBad r.status = true
    · exact ⟨.httpError r.status, by simp [loginStage, hpost, hbad]⟩
    · rw [Bool.not_eq_true] at hbad
      rw [hbad, Bool.false_or] at h
      unfold loginBodyBad at h
      rcases h1 : pyGet (safe_json r) "result" (Json.obj []) with e | res
      · exact ⟨e, by simp [loginStage, hpost, hbad, h1]⟩
      · simp only [h1] at h
        rcases h2 : pyGet res "token" Json.null with e | token
        · exact ⟨e, by simp [loginStage, hpost, hbad, h1, h2]⟩
        · simp only [h2] at h
          rcases h3 : pyGet res "tokenHead" Json.null with e | head
          · exact ⟨e, by simp [loginStage, hpost, hbad, h1, h2, h3]⟩
          · simp only [h3] at h
            rcases h4 : pyGet res "sysUserId" Json.null with e | uid
            · exact ⟨e, by simp [loginStage, hpost, hbad, h1, h2, h3, h4]⟩
            · simp only [h4] at h
              exact ⟨.valueError "Missing token/head",
                by simp [loginStage, hpost, hbad, h1, h2, h3, h4, h]⟩

/-- When the fetch failure condition holds, stage 2 produces an exception. -/
theorem infoStage_error_of_cond (o : NetOracle)
    (h : infoFailCond o = true) :
    ∃ e, (infoStage o).2.2 = Except.error e := by
  unfold infoFailCond at h
  rcases hpost : o.info with m | r
  · exact ⟨.transport m, by simp [infoStage, hpost]⟩
  · simp only [hpost] at h
    exact ⟨.httpError r.status, by simp [infoStage, hpost, h]⟩

/-- Evaluation of the pipeline when stage 1 catches an exception. -/
theorem login_and_claim_loginErr (md5hex : String → String) (cfg : Cfg)
    (cred : Cred) (o : NetOracle) (e : PyErr)
    (h : (loginStage md5hex cfg cred o).2.2 = some e) :
    login_and_claim md5hex cfg cred o =
      { phone := cred.phone,
        login_status_code := (loginStage md5hex cfg cred o).1,
        login_response := (loginStage md5hex cfg cred o).2.1,
        errors := [{ stage := "login", error := e.str }] } := by
  simp only [login_and_claim, h]

/-- Evaluation of the pipeline when stage 1 succeeds and stage 2 catches an
exception. -/
theorem login_and_claim_infoErr (md5hex : String → String) (cfg : Cfg)
    (cred : Cred) (o : NetOracle) (e : PyErr)
    (h1 : (loginStage md5hex cfg cred o).2.2 = none)
    (h2 : (infoStage o).2.2 = Except.error e) :
    login_and_claim md5hex cfg cred o =
      { phone := cred.phone,
        login_status_code := (loginStage md5hex cfg cred o).1,
        login_response := (loginStage md5hex cfg cred o).2.1,
        info_status_code := (infoStage o).1,
        info_response := (infoStage o).2.1,
        errors := [{ stage := "fetch_info", error := e.str }] } := by
  simp only [login_and_claim, h1, h2]

/-- Evaluation of the pipeline when the first two stages succeed but the tier
list cannot be built or iterated from the info body. -/
theorem login_and_claim_tiersErr (md5hex : String → String) (cfg : Cfg)
    (cred : Cred) (o : NetOracle) (info : Json) (e : PyErr)
    (h1 : (loginStage md5hex cfg cred o).2.2 = none)
    (h2 : (infoStage o).2.2 = Except.ok info)
    (h3 : tiersOf info = Except.error e) :
    login_and_claim md5hex cfg cred o =
      { phone := cred.phone,
        login_status_code := (loginStage md5hex cfg cred o).1,
        login_response := (loginStage md5hex cfg cred o).2.1,
        info_status_code := (infoStage o).1,
        info_response := (infoStage o).2.1,
        errors := [{ stage := "claim_loop", error := e.str }] } := by
  simp only [login_and_claim, h1, h2, h3]

/-- Evaluation of the pipeline when the first two stages succeed and the tier
list is extracted, handing control to the claim loop. -/
theorem login_and_claim_claims (md5hex : String → String) (cfg : Cfg)
    (cred : Cred) (o : NetOracle) (info : Json) (tiers : List Json)
    (h1 : (loginStage md5hex cfg cred o).2.2 = none)
    (h2 : (infoStage o).2.2 = Except.ok info)
    (h3 : tiersOf info = Except.ok tiers) :
    login_and_claim md5hex cfg cred o =
      { phone := cred.phone,
        login_status_code := (loginStage md5hex cfg cred o).1,
        login_response := (loginStage md5hex cfg cred o).2.1,
        info_status_code := (infoStage o).1,
        info_response := (infoStage o).2.1,
        claim_responses := if (claimLoop o none tiers).1.isEmpty then none
          else some (claimLoop o none tiers).1,
        claimed_tiers := match (claimLoop o none tiers).2.2.2 with
          | none => some (claimLoop o none tiers).2.2.1
          | some _ => none,
        errors := (claimLoop o none tiers).2.1 ++
          (match (claimLoop o none tiers).2.2.2 with
            | none => []
            | some e => [{ stage := "claim_loop", error := e.str }]) } := by
  simp only [login_and_claim, h1, h2, h3]

/-- Branch analysis of the pipeline outcome: either no claim fields are
populated at all, or the claim phase ran on the tier list extracted from the
fetched info, in which case the recorded attempts are exactly the loop's
attempts and the claimed-tiers list (when read with an empty default) is
either empty or the loop's completed list. -/
theorem login_and_claim_shape (md5hex : String → String) (cfg : Cfg)
    (cred : Cred) (o : NetOracle) :
    ((login_and_claim md5hex cfg cred o).claim_responses.getD [] = [] ∧
     (login_and_claim md5hex cfg cred o).claimed_tiers.getD [] = []) ∨
    ∃ info tiers,
      (infoStage o).2.2 = Except.ok info ∧ tiersOf info = Except.ok tiers ∧
      (login_and_claim md5hex cfg cred o).claim_responses.getD []
        = (claimLoop o none tiers).1 ∧
      ((login_and_claim md5hex cfg cred o).claimed_tiers.getD [] = [] ∨
       (login_and_claim md5hex cfg cred o).claimed_tiers.getD []
         = (claimLoop o none tiers).2.2.1) := by
  rcases hl : (loginStage md5hex cfg cred o).2.2 with _ | e
  · rcases hi : (infoStage o).2.2 with e | info
    · rw [login_and_claim_infoErr md5hex cfg cred o e hl hi]
      left; exact ⟨rfl, rfl⟩
    · rcases ht : tiersOf info with e | tiers
      · rw [login_and_claim_tiersErr md5hex cfg cred o info e hl hi ht]
        left; exact ⟨rfl, rfl⟩
      · rw [login_and_claim_claims md5hex cfg cred o info tiers hl hi ht]
        right
        refine ⟨info, tiers, rfl, ht, ?_, ?_⟩
        · rcases hk : (claimLoop o none tiers).1 with _ | ⟨a, as⟩ <;>
            simp [hk]
        · rcases hk4 : (claimLoop o none tiers).2.2.2 with _ | e <;>
            simp [hk4]
  · rw [login_and_claim_loginErr md5hex cfg cred o e hl]
    left; exact ⟨rfl, rfl⟩

/-- Status code recorded by stage 1 when the login call yields a response. -/
theorem loginStage_status (md5hex : String → String) (cfg : Cfg) (cred : Cred)
    (o : NetOracle) (r : Response)
    (h : o.login (loginPayload md5hex cfg cred) = CallResult.resp r) :
    (loginStage md5hex cfg cred o).1 = some r.status := by
  simp only [loginStage, h]
  repeat' split
  all_goals rfl

/-! ### Claim C1 -/

/-- C1 counterexample: the claim states that a login body missing the numeric
member id forces a stage-"login" ErrorRecord and an immediate return, and
that any non-2xx login status does the same.  Against `oracleNoUid` (status
200, body with token and tokenHead but no `sysUserId`) and `oracleLogin304`
(status 304, complete body) the pipeline records no error at all and
proceeds to the info fetch. -/
theorem c1_member_id_not_validated :
    pyGet (Json.obj [("token", Json.str "t"), ("tokenHead", Json.str "Bearer")])
        "sysUserId" Json.null = Except.ok Json.null ∧
    (login_and_claim md5fix cfgFix credFix oracleNoUid).errors = [] ∧
    (login_and_claim md5fix cfgFix credFix oracleNoUid).info_status_code = some 200 ∧
    (login_and_claim md5fix cfgFix credFix oracleLogin304).login_status_code = some 304 ∧
    (login_and_claim md5fix cfgFix credFix oracleLogin304).errors = [] ∧
    (login_and_claim md5fix cfgFix credFix oracleLogin304).info_status_code = some 200 :=
  ⟨rfl, rfl, rfl, rfl, rfl, rfl⟩

/-- C1 (amended): if the login call fails at transport level, returns a
4xx/5xx status, or its decoded body lacks a truthy token or tokenHead (the
numeric member id is read but never validated), the outcome carries exactly
one ErrorRecord, with stage "login", and no info-fetch or claim fields. -/
theorem c1_login_failure_isolated (md5hex : String → String) (cfg : Cfg)
    (cred : Cred) (o : NetOracle)
    (h : loginFailCond md5hex cfg cred o = true) :
    (login_and_claim md5hex cfg cred o).errors.map ErrorRecord.stage = ["login"] ∧
    (login_and_claim md5hex cfg cred o).info_status_code = none ∧
    (login_and_claim md5hex cfg cred o).info_response = none ∧
    (login_and_claim md5hex cfg cred o).claim_responses = none ∧
    (login_and_claim md5hex cfg cred o).claimed_tiers = none := by
  obtain ⟨e, he⟩ := loginStage_some_of_cond md5hex cfg cred o h
  rw [login_and_claim_loginErr md5hex cfg cred o e he]
  exact ⟨rfl, rfl, rfl, rfl, rfl⟩

/-- Witness for C1: a 404 login response triggers the failure condition and
the theorem's conclusion at a concrete input. -/
theorem c1_login_failure_isolated_witness :
    loginFailCond md5fix cfgFix credFix oracleLoginRejected = true ∧
    ((login_and_claim md5fix cfgFix credFix oracleLoginRejected).errors.map
        ErrorRecord.stage = ["login"] ∧
     (login_and_claim md5fix cfgFix credFix oracleLoginRejected).info_status_code = none ∧
     (login_and_claim md5fix cfgFix credFix oracleLoginRejected).info_response = none ∧
     (login_and_claim md5fix cfgFix credFix oracleLoginRejected).claim_responses = none ∧
     (login_and_claim md5fix cfgFix credFix oracleLoginRejected).claimed_tiers = none) :=
  ⟨rfl, c1_login_failure_isolated md5fix cfgFix credFix oracleLoginRejected rfl⟩

/-! ### Claim C2 -/

/-- C2: evaluation at the failing input.  Tier 1 and tier 2 are both
"complete"; the claim call for tier 1 (the first issued) fails at transport
level, and the claim call for tier 2 would succeed.  The per-tier handler
evaluates `safe_json(rr)` with `rr` unbound, so the outcome carries a single
stage-"claim_loop" ErrorRecord instead of one scoped to tier 1, no claim
attempt is recorded, tier 2 is never attempted, and `claimed_tiers` is never
assigned. -/
theorem c2_transport_error_without_prior_response_aborts_loop :
    (login_and_claim md5fix cfgFix credFix oracleFirstClaimDrops).errors.map
        ErrorRecord.stage = ["claim_loop"] ∧
    (login_and_claim md5fix cfgFix credFix oracleFirstClaimDrops).errors.map
        ErrorRecord.error
      = ["local variable rr referenced before assignment"] ∧
    (login_and_claim md5fix cfgFix credFix oracleFirstClaimDrops).claim_responses = none ∧
    (login_and_claim md5fix cfgFix credFix oracleFirstClaimDrops).claimed_tiers = none :=
  ⟨rfl, rfl, rfl, rfl⟩

/-! ### Claim C3 -/

/-- C3: claim attempts are recorded only for tiers whose fetched status is
exactly "complete", in service order (the attempted tier numbers form a
sublist of the complete tier numbers), and every claimed tier id is one of
the complete tier numbers. -/
theorem c3_attempts_only_complete_tiers (md5hex : String → String) (cfg : Cfg)
    (cred : Cred) (o : NetOracle) :
    (((login_and_claim md5hex cfg cred o).claim_responses.getD []).map
        ClaimAttempt.tier).Sublist (completeNums o) ∧
    ∀ t ∈ (login_and_claim md5hex cfg cred o).claimed_tiers.getD [],
      t ∈ completeNums o := by
  rcases login_and_claim_shape md5hex cfg cred o with
    ⟨h1, h2⟩ | ⟨info, tiers, hi, ht, hatt, hcl⟩
  · rw [h1, h2]
    exact ⟨List.nil_sublist _, by simp⟩
  · have hcn : completeNums o = completeNumsOf tiers := by
      simp [completeNums, hi, ht]
    rw [hatt, hcn]
    refine ⟨claimLoop_attempts_sublist o tiers none, ?_⟩
    rcases hcl with hcl | hcl
    · rw [hcl]; simp
    · rw [hcl]
      intro t htm
      exact (claimLoop_completed_spec o tiers none t htm).1

/-- Witness for C3 at a concrete input: the single claimed tier 3 is among
the complete tier numbers, and the attempted tiers form a sublist of them. -/
theorem c3_attempts_only_complete_tiers_witness :
    (((login_and_claim md5fix cfgFix credFix oracleInfo304).claim_responses.getD
        []).map ClaimAttempt.tier).Sublist (completeNums oracleInfo304) ∧
    Json.num 3 ∈ completeNums oracleInfo304 := by
  have hm : Json.num 3 ∈
      (login_and_claim md5fix cfgFix credFix oracleInfo304).claimed_tiers.getD [] := by
    rw [show (login_and_claim md5fix cfgFix credFix
        oracleInfo304).claimed_tiers.getD [] = [Json.num 3] from rfl]
    exact List.mem_singleton.mpr rfl
  exact ⟨(c3_attempts_only_complete_tiers md5fix cfgFix credFix oracleInfo304).1,
    (c3_attempts_only_complete_tiers md5fix cfgFix credFix oracleInfo304).2
      (Json.num 3) hm⟩

/-! ### Claim C4 -/

/-- C4: the batch run produces exactly one terminal outcome per input
account — the outcome list has the same length as the credential list and its
entries carry the accounts' phones position by position.  The pipeline is a
total function of its inputs: every stage exception is consumed into the
returned outcome's error list, so no execution path escapes to the
orchestrator. -/
theorem c4_one_outcome_per_account (md5hex : String → String) (cfg : Cfg)
    (world : Cred → NetOracle) (creds : List Cred) :
    (runAll md5hex cfg world creds).length = creds.length ∧
    (runAll md5hex cfg world creds).map Outcome.phone = creds.map Cred.phone := by
  constructor
  · simp [runAll]
  · simp [runAll, List.map_map, Function.comp, login_and_claim_phone]

/-! ### Claim C5 -/

/-- C5 counterexample: the claim states that a claim call returning a
non-2xx status never contributes its tier id to the success list.  Against
`oracle304Claim` the claim call for tier 4 returns 304 (non-2xx); the
client's `raise_for_status` does not fire on 3xx, so the attempt is recorded
with status 304 and tier 4 still enters the claimed-tiers list. -/
theorem c5_304_claim_status_contributes :
    oracle304Claim.claim (Json.num 4) = CallResult.resp ⟨304, "", some (Json.obj [])⟩ ∧
    (login_and_claim md5fix cfgFix credFix oracle304Claim).claim_responses
      = some [⟨Json.num 4, 304, Json.obj []⟩] ∧
    (login_and_claim md5fix cfgFix credFix oracle304Claim).claimed_tiers
      = some [Json.num 4] :=
  ⟨rfl, rfl, rfl⟩

/-- C5 (amended): a tier id enters the claimed-tiers success list only if
its claim call returned an actual response (no transport error was raised)
whose status passed `raise_for_status` (i.e. was not 4xx/5xx); a claim call
that raised, or returned a 4xx/5xx status, never contributes its tier id. -/
theorem c5_claimed_only_on_successful_call (md5hex : String → String)
    (cfg : Cfg) (cred : Cred) (o : NetOracle) (t : Json)
    (ht : t ∈ (login_and_claim md5hex cfg cred o).claimed_tiers.getD []) :
    ∃ rr, o.claim t = CallResult.resp rr ∧ httpBad rr.status = false := by
  rcases login_and_claim_shape md5hex cfg cred o with
    ⟨h1, h2⟩ | ⟨info, tiers, hi, htr, hatt, hcl⟩
  · rw [h2] at ht; simp at ht
  · rcases hcl with hcl | hcl
    · rw [hcl] at ht; simp at ht
    · rw [hcl] at ht
      exact (claimLoop_completed_spec o tiers none t ht).2

/-- Witness for C5: tier 3 is claimed at a concrete input and its claim call
indeed returned a passing response. -/
theorem c5_claimed_only_on_successful_call_witness :
    Json.num 3 ∈
      (login_and_claim md5fix cfgFix credFix oracleInfo304).claimed_tiers.getD [] ∧
    ∃ rr, oracleInfo304.claim (Json.num 3) = CallResult.resp rr ∧
      httpBad rr.status = false := by
  have hm : Json.num 3 ∈
      (login_and_claim md5fix cfgFix credFix oracleInfo304).claimed_tiers.getD [] := by
    rw [show (login_and_claim md5fix cfgFix credFix
        oracleInfo304).claimed_tiers.getD [] = [Json.num 3] from rfl]
    exact List.mem_singleton.mpr rfl
  exact ⟨hm, c5_claimed_only_on_successful_call md5fix cfgFix credFix
    oracleInfo304 (Json.num 3) hm⟩

/-! ### Claim C6 -/

/-- C6 counterexample: the claim states that any non-2xx info-fetch status
yields a stage-"fetch_info" ErrorRecord and an immediate return with no
claim records.  Against `oracleInfo304` the info call returns 304 (non-2xx),
yet the pipeline records no error, proceeds to the claim stage and records a
claim attempt — the client's `raise_for_status` only fires on 4xx/5xx. -/
theorem c6_304_info_status_does_not_abort :
    (login_and_claim md5fix cfgFix credFix oracleInfo304).info_status_code = some 304 ∧
    (login_and_claim md5fix cfgFix credFix oracleInfo304).errors = [] ∧
    (login_and_claim md5fix cfgFix credFix oracleInfo304).claim_responses
      = some [⟨Json.num 3, 200, Json.obj []⟩] :=
  ⟨rfl, rfl, rfl⟩

/-- C6 (amended): if login succeeds and the info-fetch call fails at
transport level or returns a 4xx/5xx status, the outcome carries exactly one
ErrorRecord, with stage "fetch_info", and no claim records or claimed
tiers. -/
theorem c6_fetch_failure_isolated (md5hex : String → String) (cfg : Cfg)
    (cred : Cred) (o : NetOracle)
    (h1 : (loginStage md5hex cfg cred o).2.2 = none)
    (h2 : infoFailCond o = true) :
    (login_and_claim md5hex cfg cred o).errors.map ErrorRecord.stage
      = ["fetch_info"] ∧
    (login_and_claim md5hex cfg cred o).claim_responses = none ∧
    (login_and_claim md5hex cfg cred o).claimed_tiers = none := by
  obtain ⟨e, he⟩ := infoStage_error_of_cond o h2
  rw [login_and_claim_infoErr md5hex cfg cred o e h1 he]
  exact ⟨rfl, rfl, rfl⟩

/-- Witness for C6: a 500 info response after a successful login triggers
the failure condition and the theorem's conclusion at a concrete input. -/
theorem c6_fetch_failure_isolated_witness :
    (loginStage md5fix cfgFix credFix oracleInfo500).2.2 = none ∧
    infoFailCond oracleInfo500 = true ∧
    ((login_and_claim md5fix cfgFix credFix oracleInfo500).errors.map
        ErrorRecord.stage = ["fetch_info"] ∧
     (login_and_claim md5fix cfgFix credFix oracleInfo500).claim_responses = none ∧
     (login_and_claim md5fix cfgFix credFix oracleInfo500).claimed_tiers = none) :=
  ⟨rfl, rfl, c6_fetch_failure_isolated md5fix cfgFix credFix oracleInfo500 rfl rfl⟩

/-! ### Claim C7 -/

/-- C7: an exception raised while building the tier list, or while iterating
it, is caught and recorded as a stage-"claim_loop" ErrorRecord, and every
claim attempt recorded before the failure is retained in the returned
outcome (the outcome's attempt list is exactly the loop's accumulated
attempts, and its error list is the loop's per-tier errors followed by the
"claim_loop" record). -/
theorem c7_claim_loop_failure_retains_attempts (md5hex : String → String)
    (cfg : Cfg) (cred : Cred) (o : NetOracle) (info : Json) (e : PyErr)
    (h1 : (loginStage md5hex cfg cred o).2.2 = none)
    (h2 : (infoStage o).2.2 = Except.ok info) :
    (tiersOf info = Except.error e →
      (login_and_claim md5hex cfg cred o).errors
        = [{ stage := "claim_loop", error := e.str }] ∧
      (login_and_claim md5hex cfg cred o).claim_responses = none) ∧
    (∀ tiers as es cs, tiersOf info = Except.ok tiers →
      claimLoop o none tiers = (as, es, cs, some e) →
      (login_and_claim md5hex cfg cred o).errors.map ErrorRecord.stage
        = es.map ErrorRecord.stage ++ ["claim_loop"] ∧
      (login_and_claim md5hex cfg cred o).claim_responses.getD [] = as ∧
      (login_and_claim md5hex cfg cred o).claimed_tiers = none) := by
  constructor
  · intro h3
    rw [login_and_claim_tiersErr md5hex cfg cred o info e h1 h2 h3]
    exact ⟨rfl, rfl⟩
  · intro tiers as es cs h3 h4
    rw [login_and_claim_claims md5hex cfg cred o info tiers h1 h2 h3]
    refine ⟨by simp [h4], ?_, by simp [h4]⟩
    rcases as with _ | ⟨a, as2⟩ <;> simp [h4]

/-- Witness for C7: the tier list holds a complete tier 5 (whose claim
succeeds) followed by a malformed record; the resulting AttributeError is
recorded as "claim_loop" while the attempt for tier 5 is retained. -/
theorem c7_claim_loop_failure_retains_attempts_witness :
    (loginStage md5fix cfgFix credFix oracleBadTier).2.2 = none ∧
    (login_and_claim md5fix cfgFix credFix oracleBadTier).errors.map
        ErrorRecord.stage = ["claim_loop"] ∧
    (login_and_claim md5fix cfgFix credFix oracleBadTier).claim_responses.getD []
      = [⟨Json.num 5, 200, Json.obj []⟩] := by
  have h := (c7_claim_loop_failure_retains_attempts md5fix cfgFix credFix
      oracleBadTier infoBodyBadTier
      (PyErr.attributeError "object has no attribute get") rfl rfl).2
      [tierComplete 5, Json.str "bad"] [⟨Json.num 5, 200, Json.obj []⟩] []
      [Json.num 5] rfl rfl
  exact ⟨rfl, h.1, h.2.1⟩

/-! ### Claim C8 -/

/-- C8: the response decoder is total — when the body parses it returns the
decoded value unchanged, and when parsing fails it returns the fallback dict
carrying the raw response text under the reserved `_raw` key (readable back
via a dictionary lookup). -/
theorem c8_safe_json_total (r : Response) :
    (∀ j, r.body = some j → safe_json r = j) ∧
    (r.body = none →
      safe_json r = Json.obj [("_raw", Json.str r.text)] ∧
      pyGet (safe_json r) "_raw" Json.null = Except.ok (Json.str r.text)) := by
  constructor
  · intro j hj; simp [safe_json, hj]
  · intro hn
    have hs : safe_json r = Json.obj [("_raw", Json.str r.text)] := by
      simp [safe_json, hn]
    refine ⟨hs, ?_⟩
    rw [hs]
    rfl

/-- Witness for C8: a 500 response with unparseable body decodes to the raw
fallback. -/
theorem c8_safe_json_total_witness :
    (⟨500, "oops", none⟩ : Response).body = none ∧
    (safe_json ⟨500, "oops", none⟩ = Json.obj [("_raw", Json.str "oops")] ∧
     pyGet (safe_json ⟨500, "oops", none⟩) "_raw" Json.null
       = Except.ok (Json.str "oops")) :=
  ⟨rfl, (c8_safe_json_total ⟨500, "oops", none⟩).2 rfl⟩

/-! ### Claim C9 -/

/-- C9: for an outcome that reaches the claim stage, the claimed-tiers field
is present exactly when the tier list was built and the loop finished with no
escaping exception; when the loop did raise, the field is absent even though
the attempts recorded before the failure (including successful ones) remain
visible in the attempt list. -/
theorem c9_claimed_tiers_presence (md5hex : String → String) (cfg : Cfg)
    (cred : Cred) (o : NetOracle) (info : Json)
    (h1 : (loginStage md5hex cfg cred o).2.2 = none)
    (h2 : (infoStage o).2.2 = Except.ok info) :
    ((login_and_claim md5hex cfg cred o).claimed_tiers.isSome ↔
      ∃ tiers, tiersOf info = Except.ok tiers ∧
        (claimLoop o none tiers).2.2.2 = none) ∧
    (∀ tiers, tiersOf info = Except.ok tiers →
      ∀ e, (claimLoop o none tiers).2.2.2 = some e →
        (login_and_claim md5hex cfg cred o).claimed_tiers = none ∧
        (login_and_claim md5hex cfg cred o).claim_responses.getD []
          = (claimLoop o none tiers).1) := by
  rcases ht : tiersOf info with e | tiers
  · rw [login_and_claim_tiersErr md5hex cfg cred o info e h1 h2 ht]
    constructor
    · simp
    · intro tiers2 ht2
      cases ht2
  · rw [login_and_claim_claims md5hex cfg cred o info tiers h1 h2 ht]
    constructor
    · rcases hk4 : (claimLoop o none tiers).2.2.2 with _ | e2
      · simp [hk4]
      · simp [hk4]
    · intro tiers2 ht2 e2 he2
      have htt : tiers2 = tiers := by injection ht2.symm
      subst htt
      refine ⟨by simp [he2], ?_⟩
      rcases hk1 : (claimLoop o none tiers2).1 with _ | ⟨a, as⟩ <;>
        simp [he2, hk1]

/-- Witness for C9: at the malformed-tier input the loop raises after one
successful claim, `claimed_tiers` is absent, and the attempt list still holds
the claim for tier 5. -/
theorem c9_claimed_tiers_presence_witness :
    (login_and_claim md5fix cfgFix credFix oracleBadTier).claimed_tiers = none ∧
    (login_and_claim md5fix cfgFix credFix oracleBadTier).claim_responses.getD []
      = [⟨Json.num 5, 200, Json.obj []⟩] :=
  (c9_claimed_tiers_presence md5fix cfgFix credFix oracleBadTier
      infoBodyBadTier rfl rfl).2 [tierComplete 5, Json.str "bad"] rfl
      (PyErr.attributeError "object has no attribute get") rfl

/-! ### Claim C10 -/

/-- C10: the password proof in the login payload is the digest of the shared
password base concatenated with the account's secret code, in that order, and
the pipeline posts exactly this payload to the login endpoint (its recorded
login status is the status of the oracle's response to it). -/
theorem c10_password_proof (md5hex : String → String) (cfg : Cfg)
    (cred : Cred) :
    pyGet (loginPayload md5hex cfg cred) "password" Json.null
      = Except.ok (Json.str (md5hex (cfg.password ++ cred.code))) ∧
    ∀ (o : NetOracle) (r : Response),
      o.login (loginPayload md5hex cfg cred) = CallResult.resp r →
      (login_and_claim md5hex cfg cred o).login_status_code = some r.status := by
  constructor
  · rfl
  · intro o r h
    rw [login_and_claim_login_status, loginStage_status md5hex cfg cred o r h]

/-- Witness for C10: the concrete account posts the digest of
"password" ++ "755" and the recorded login status is the oracle's 200. -/
theorem c10_password_proof_witness :
    oracleInfo304.login (loginPayload md5fix cfgFix credFix)
      = CallResult.resp ⟨200, "", some okLoginBody⟩ ∧
    pyGet (loginPayload md5fix cfgFix credFix) "password" Json.null
      = Except.ok (Json.str (md5fix ("password" ++ "755"))) ∧
    (login_and_claim md5fix cfgFix credFix oracleInfo304).login_status_code
      = some 200 :=
  ⟨rfl, (c10_password_proof md5fix cfgFix credFix).1,
   (c10_password_proof md5fix cfgFix credFix).2 oracleInfo304
     ⟨200, "", some okLoginBody⟩ rfl⟩
